import Mathlib

/-!
Verification development for the ozo type-mapping and OID-registry core
(`include/ozo/type_traits.h`, `include/ozo/ext/std/weak_ptr.h`).

The C++ code is a compile-time trait system; we shallowly embed it:
C++ types that can carry `type_traits` specializations become the
inductive `ozo.Ty`, the trait specializations generated by the
`OZO_PG_DEFINE_TYPE_AND_ARRAY` family become an association table of
`ozo.TypeTraits` entries, `boost::hana::map`-based OID maps become
association lists with `Nat` OIDs, and `static_assert` failures or
ill-formed `at_key` accesses (compile-time errors) become `Option`
results with `none` for "does not compile".
-/

namespace ozo

/-- The nullable wrapper templates the source marks with
`is_nullable<...> : std::true_type` (type_traits.h lines 109-128 and
ext/std/weak_ptr.h line 9): `boost::optional`, `std::optional`
(`__OZO_STD_OPTIONAL`), `boost::scoped_ptr`, `std::unique_ptr`,
`boost::shared_ptr`, `std::shared_ptr`, `boost::weak_ptr`, `std::weak_ptr`. -/
inductive WrapperKind where
  | boostOptional
  | stdOptional
  | boostScopedPtr
  | stdUniquePtr
  | boostSharedPtr
  | stdSharedPtr
  | boostWeakPtr
  | stdWeakPtr
deriving DecidableEq, Repr

/-- C++ types that participate in the `ozo::type_traits` lookup: the PG
base types mapped by the header's `OZO_PG_DEFINE_TYPE_AND_ARRAY` calls
(type_traits.h lines 601-618), user-defined custom types (indexed),
`std::vector` sequences and the nullable wrapper templates. -/
inductive Ty where
  | pgBool
  | pgChar
  | bytea
  | uuid
  | int8
  | int4
  | int2
  | pgOid
  | float8
  | float4
  | text
  | pgName
  | custom (idx : Nat)
  | vector (t : Ty)
  | wrapped (k : WrapperKind) (t : Ty)
deriving DecidableEq, Repr

/-- `is_nullable<T>::value` (type_traits.h lines 106-128): true exactly
for the wrapper templates. -/
def is_nullable : Ty → Bool
  | .wrapped _ _ => true
  | _ => false

/-- Modelled from the spec: `unwrap_nullable_type<T>` (referenced at
type_traits.h line 361, defined in a header not included here) - the
inner type `T` of a nullable wrapper type `W`; identity on
non-nullable types. -/
def unwrap_nullable_type : Ty → Ty
  | .wrapped _ t => t
  | t => t

/-- The payload of a `type_traits<T>` specialization built via
`type_traits_helper<T, Name, Oid, Size>` (type_traits.h lines 389-396):
`name` the DB type name, `oid` the OID constant (`0` is the
`null_oid_t` sentinel of lines 98-104), `size` is `some n` for
`bytes<n>` and `none` for `dynamic_size` (lines 368-370). -/
structure TypeTraits where
  name : String
  oid : Nat
  size : Option Nat
deriving DecidableEq, Repr

/-- One `OZO_PG_DEFINE_TYPE_AND_ARRAY(Type, Name, Oid, ArrayOid, Size)`
invocation (type_traits.h lines 579-583). -/
structure TypeDef where
  base : Ty
  name : String
  oid : Nat
  arrayOid : Nat
  size : Option Nat
deriving DecidableEq, Repr

/-- First-match lookup in an association list keyed by `Ty`; models
finding the most specialized `type_traits<T>` explicit specialization. -/
def assocFind {β : Type} : List (Ty × β) → Ty → Option β
  | [], _ => none
  | (k, v) :: rest, t => if k = t then some v else assocFind rest t

/-- The explicit `type_traits` specializations one
`OZO_PG_DEFINE_TYPE_AND_ARRAY(Type, Name, Oid, ArrayOid, Size)` call
generates (type_traits.h lines 579-583): `Type` itself via
`OZO_PG_DEFINE_TYPE` (lines 499-508), `std::vector<Type>` via
`OZO_PG_DEFINE_TYPE_ARRAY` (lines 510-519) with the name suffixed by
`[]` (`OZO__TYPE_ARRAY_NAME_TYPE`, line 497), OID `ArrayOid` and
`dynamic_size`, and the `OZO_PG_DEFINE_TYPE_ARRAY_NULLABLES` vectors of
wrapped elements (lines 528-534) with the same array traits. -/
def familyEntries (d : TypeDef) : List (Ty × TypeTraits) :=
  [ (d.base, ⟨d.name, d.oid, d.size⟩),
    (.vector d.base, ⟨d.name ++ "[]", d.arrayOid, none⟩),
    (.vector (.wrapped .boostOptional d.base), ⟨d.name ++ "[]", d.arrayOid, none⟩),
    (.vector (.wrapped .stdOptional d.base), ⟨d.name ++ "[]", d.arrayOid, none⟩),
    (.vector (.wrapped .boostScopedPtr d.base), ⟨d.name ++ "[]", d.arrayOid, none⟩),
    (.vector (.wrapped .stdUniquePtr d.base), ⟨d.name ++ "[]", d.arrayOid, none⟩),
    (.vector (.wrapped .boostSharedPtr d.base), ⟨d.name ++ "[]", d.arrayOid, none⟩),
    (.vector (.wrapped .stdSharedPtr d.base), ⟨d.name ++ "[]", d.arrayOid, none⟩) ]

/-- The whole explicit-specialization table produced by a list of
`OZO_PG_DEFINE_TYPE_AND_ARRAY` invocations. -/
def defsTable (defs : List TypeDef) : List (Ty × TypeTraits) :=
  (defs.map familyEntries).flatten

/-- `type_traits<T>` resolution (type_traits.h lines 353-362): an
explicit specialization wins; otherwise the primary template falls back
to `type_traits_default<T>`, which for `Nullable` `T` inherits
`type_traits<unwrap_nullable_type<T>>` and is empty (no traits)
otherwise. -/
def lookupTraits (table : List (Ty × TypeTraits)) : Ty → Option TypeTraits
  | .wrapped k t =>
    match assocFind table (.wrapped k t) with
    | some tr => some tr
    | none => lookupTraits table t
  | t => assocFind table t

/-- `is_built_in<T>` (type_traits.h lines 418-424): true iff
`type_traits<T>::oid` exists and is not the type `null_oid_t`
(= `oid_constant<0>`); types without traits fall to the `false_type`
primary template. -/
def is_built_in (table : List (Ty × TypeTraits)) (t : Ty) : Bool :=
  match lookupTraits table t with
  | some tr => tr.oid != 0
  | none => false

/-- The `OZO_PG_DEFINE_TYPE_AND_ARRAY` invocations of the header itself
(type_traits.h lines 601-618). The OID constants come from PostgreSQL's
fixed catalog (`detail/pg_type.h` / `libpq`, not part of the two files
here): BOOLOID 16, CHAROID 18, BYTEAOID 17, UUIDOID 2950, INT8OID 20,
INT4OID 23, INT2OID 21, OIDOID 26, FLOAT8OID 701, FLOAT4OID 700,
TEXTOID 25, NAMEOID 19, and the array OIDs written literally or via
INT4ARRAYOID 1007, INT2ARRAYOID 1005, OIDARRAYOID 1028,
FLOAT4ARRAYOID 1021, TEXTARRAYOID 1009. -/
def builtinDefs : List TypeDef :=
  [ ⟨.pgBool, "bool", 16, 1000, some 1⟩,
    ⟨.pgChar, "char", 18, 1002, some 1⟩,
    ⟨.bytea, "bytea", 17, 1001, none⟩,
    ⟨.uuid, "uuid", 2950, 2951, some 16⟩,
    ⟨.int8, "int8", 20, 1016, some 8⟩,
    ⟨.int4, "int4", 23, 1007, some 4⟩,
    ⟨.int2, "int2", 21, 1005, some 2⟩,
    ⟨.pgOid, "oid", 26, 1028, some 4⟩,
    ⟨.float8, "float8", 701, 1022, some 8⟩,
    ⟨.float4, "float4", 700, 1021, some 4⟩,
    ⟨.text, "text", 25, 1009, none⟩,
    ⟨.pgName, "name", 19, 1003, none⟩ ]

/-- `oid_map_t` (type_traits.h lines 628-633): the `boost::hana::map`
from type keys to OID values, embedded as an association list. -/
structure oid_map_t where
  impl : List (Ty × Nat)
deriving DecidableEq, Repr

/-- `register_types<T...>()` (type_traits.h lines 680-686 and 714-718):
builds the map with one pair per listed type, each valued
`null_oid()` = 0. No check of any kind is performed on the types. -/
def register_types (ts : List Ty) : oid_map_t :=
  ⟨ts.map fun t => (t, 0)⟩

/-- In-place update of the value stored under the first occurrence of
key `t`; models the assignment through `hana::at_key`'s reference. -/
def assocSet : List (Ty × Nat) → Ty → Nat → List (Ty × Nat)
  | [], _, _ => []
  | (k, v) :: rest, t, o => if k = t then (k, o) :: rest else (k, v) :: assocSet rest t o

/-- `set_type_oid<T>(map, oid)` (type_traits.h lines 733-737):
`static_assert(!is_built_in<T>::value)` then
`map.impl[hana::type_c<T>] = oid`. `none` models a compile-time error:
either the `static_assert` firing for a built-in `T`, or `at_key` being
ill-formed because `T` is not a key of the map. -/
def set_type_oid (table : List (Ty × TypeTraits)) (t : Ty) (m : oid_map_t) (o : Nat) :
    Option oid_map_t :=
  if is_built_in table t then none
  else if (assocFind m.impl t).isSome then some ⟨assocSet m.impl t o⟩
  else none

/-- `type_oid<T>(map)` (type_traits.h lines 750-760): the overload for
`BuiltIn` `T` returns `type_traits<T>::oid()` without touching the map;
the overload for non-built-in `T` returns `map.impl[hana::type_c<T>]`,
ill-formed (`none`) when `T` is not a key. -/
def type_oid (table : List (Ty × TypeTraits)) (t : Ty) (m : oid_map_t) : Option Nat :=
  if is_built_in table t then (lookupTraits table t).map (·.oid)
  else assocFind m.impl t

/-- `accepts_oid<T>(map, oid)` (type_traits.h lines 788-791):
`type_oid<T>(map) == oid`. -/
def accepts_oid (table : List (Ty × TypeTraits)) (t : Ty) (m : oid_map_t) (o : Nat) :
    Option Bool :=
  (type_oid table t m).map fun x => x == o

/-- `empty(map)` (type_traits.h lines 819-822):
`hana::length(map.impl) == hana::size_c<0>`. -/
def empty (m : oid_map_t) : Bool :=
  m.impl.length == 0

/-- A value as seen by `size_of` (type_traits.h lines 471-483), which
dispatches on the type's size trait: `fixedVal n c` is a value of a
type with trait `bytes<n>` and arbitrary contents `c`; `dynVal elems`
is a value of a `dynamic_size` type, a range of element values. -/
inductive Value where
  | fixedVal (n : Nat) (content : Nat)
  | dynVal (elems : List Value)

/-- `size_of(v)` (type_traits.h lines 471-483): for a statically sized
type the overload at lines 471-476 returns `type_traits<T>::size{}`
ignoring the value; for a dynamically sized type the overload at lines
478-483 returns `std::size(v) ? std::size(v) * size_of(*std::begin(v)) : 0`. -/
def size_of : Value → Nat
  | .fixedVal n _ => n
  | .dynVal [] => 0
  | .dynVal (e :: es) => (e :: es).length * size_of e

/-- `is_null(v)` for the ownership wrappers (type_traits.h lines
233-236): `!v`, i.e. true iff the wrapper holds no object. The state of
`boost::optional`, `std::optional`, `boost::scoped_ptr`,
`std::unique_ptr`, `boost::shared_ptr` and `std::shared_ptr` is
embedded as `Option`. -/
def is_null {α : Type} (v : Option α) : Bool :=
  v.isNone

/-- A `std::weak_ptr` / `boost::weak_ptr`: `referent` is `some` the
pointee while a strong owner is alive, `none` once the last
`shared_ptr` is destroyed or when the weak pointer was never assigned. -/
structure WeakPtr (α : Type) where
  referent : Option α
deriving DecidableEq, Repr

/-- `weak_ptr::lock()`: returns a strong `shared_ptr`, empty when the
referent is gone; it never throws. -/
def WeakPtr.lock {α : Type} (w : WeakPtr α) : Option α :=
  w.referent

/-- `is_null` on weak pointers (type_traits.h lines 238-246 and
ext/std/weak_ptr.h lines 19-25): `is_null(v.lock())`, declared
`noexcept`. -/
def is_null_weak {α : Type} (w : WeakPtr α) : Bool :=
  is_null w.lock

/-- `unwrap_nullable` on the ownership wrappers (type_traits.h lines
186-192): `*v`; dereferencing an absent wrapper is undefined behaviour,
embedded as `Option.get!`'s junk value. -/
def unwrap_nullable {α : Type} [Inhabited α] (v : Option α) : α :=
  v.get!

/-- Whether `allocate_nullable_impl` exists for the wrapper kind: the
default implementation (type_traits.h lines 269-276) requires
`Emplaceable` (satisfied by the two optionals), and explicit
specializations cover `std::unique_ptr`, `boost::scoped_ptr`,
`boost::shared_ptr`, `std::shared_ptr` (lines 278-308). Weak pointers
have neither, so `allocate_nullable` on them is a compile-time error
(the `static_assert` at line 271). -/
def allocSupported : WrapperKind → Bool
  | .boostWeakPtr => false
  | .stdWeakPtr => false
  | _ => true

/-- `allocate_nullable(out, a)` (type_traits.h lines 269-314) as a
state transformer on the wrapper state, per wrapper kind:
`out.emplace()` for the optionals, `std::make_unique<T>()`,
`out.reset(new T{})`, `boost::allocate_shared<T>(a)`,
`std::allocate_shared<T>(a)` for the pointer wrappers - each installs a
default-constructed inner value. The outer `Option` is `none` for the
weak kinds, whose instantiation does not compile. -/
def allocate_nullable {α : Type} [Inhabited α] (k : WrapperKind) (_out : Option α) :
    Option (Option α) :=
  match k with
  | .boostOptional => some (some default)
  | .stdOptional => some (some default)
  | .boostScopedPtr => some (some default)
  | .stdUniquePtr => some (some default)
  | .boostSharedPtr => some (some default)
  | .stdSharedPtr => some (some default)
  | .boostWeakPtr => none
  | .stdWeakPtr => none

/-- `init_nullable(n, a)` (type_traits.h lines 316-322): if `is_null(n)`
then `allocate_nullable(n, a)`, else leave `n` untouched. -/
def init_nullable {α : Type} [Inhabited α] (k : WrapperKind) (n : Option α) :
    Option (Option α) :=
  if is_null n then allocate_nullable k n else some n

/-- `reset_nullable(n)` (type_traits.h lines 324-328): `n = T{}`; the
default-constructed state of every ownership wrapper is the absent
state. -/
def reset_nullable {α : Type} (_n : Option α) : Option α :=
  none

/-! Helper lemmas shared by the claim theorems. -/

lemma assocFind_map_zero (ts : List Ty) (t : Ty) :
    assocFind (ts.map fun s => (s, 0)) t = if t ∈ ts then some 0 else none := by
  induction ts with
  | nil => rfl
  | cons s rest ih =>
    by_cases h : s = t
    · subst h; simp [assocFind]
    · have ht : (t ∈ s :: rest) ↔ (t ∈ rest) := by
        constructor
        · intro hm
          rcases List.mem_cons.mp hm with h' | h'
          · exact absurd h'.symm h
          · exact h'
        · exact fun hm => List.mem_cons_of_mem _ hm
      simp [assocFind, h, ih, ht]

lemma assocFind_assocSet_self (l : List (Ty × Nat)) (t : Ty) (o : Nat)
    (h : (assocFind l t).isSome) :
    assocFind (assocSet l t o) t = some o := by
  induction l with
  | nil => simp [assocFind] at h
  | cons p rest ih =>
    obtain ⟨k, v⟩ := p
    by_cases hk : k = t
    · subst hk; simp [assocSet, assocFind]
    · simp only [assocFind, hk, if_false] at h
      simp [assocSet, assocFind, hk, ih h]

lemma assocFind_assocSet_other (l : List (Ty × Nat)) (t : Ty) (o : Nat) (u : Ty)
    (h : u ≠ t) :
    assocFind (assocSet l t o) u = assocFind l u := by
  induction l with
  | nil => rfl
  | cons p rest ih =>
    obtain ⟨k, v⟩ := p
    by_cases hk : k = t
    · subst hk
      have hku : ¬ k = u := fun h' => h h'.symm
      simp [assocSet, assocFind, hku]
    · by_cases hku : k = u
      · subst hku; simp [assocSet, assocFind, hk]
      · simp [assocSet, assocFind, hk, hku, ih]

lemma assocSet_keys (l : List (Ty × Nat)) (t : Ty) (o : Nat) :
    (assocSet l t o).map Prod.fst = l.map Prod.fst := by
  induction l with
  | nil => rfl
  | cons p rest ih =>
    obtain ⟨k, v⟩ := p
    by_cases hk : k = t
    · subst hk; simp [assocSet]
    · simp [assocSet, hk, ih]

lemma assocSet_length (l : List (Ty × Nat)) (t : Ty) (o : Nat) :
    (assocSet l t o).length = l.length := by
  have h := congrArg List.length (assocSet_keys l t o)
  simpa using h

lemma ty_ne_vector (t : Ty) : t ≠ Ty.vector t := by
  induction t <;> simp_all

/-- Claim C1: for every built-in type `T` (its descriptor OID is not the
unassigned sentinel 0), `is_built_in<T>` holds and `type_oid<T>(reg)`
returns the constant OID from `T`'s descriptor for every registry,
identically for any two registries - the registry is never consulted. -/
theorem built_in_type_oid_constant (table : List (Ty × TypeTraits)) (t : Ty)
    (tr : TypeTraits) (h : lookupTraits table t = some tr) (hoid : tr.oid ≠ 0) :
    is_built_in table t = true ∧
    ∀ m m' : oid_map_t,
      type_oid table t m = some tr.oid ∧ type_oid table t m = type_oid table t m' := by
  have hb : is_built_in table t = true := by
    simp [is_built_in, h, hoid]
  refine ⟨hb, fun m m' => ?_⟩
  simp [type_oid, hb, h]

/-- Witness for C1 at the built-in `std::int32_t` (OID 23): true on the
empty registry and on a registry holding a custom type, with the same
result. -/
theorem built_in_type_oid_constant_witness :
    is_built_in (defsTable builtinDefs) Ty.int4 = true ∧
    type_oid (defsTable builtinDefs) Ty.int4 (register_types []) = some 23 ∧
    type_oid (defsTable builtinDefs) Ty.int4 (register_types [Ty.custom 0]) = some 23 := by
  have h := built_in_type_oid_constant (defsTable builtinDefs) Ty.int4
    ⟨"int4", 23, some 4⟩ (by decide) (by decide)
  exact ⟨h.1, (h.2 (register_types []) (register_types [])).1,
    (h.2 (register_types [Ty.custom 0]) (register_types [])).1⟩

/-- Claim C2: for a custom (non-built-in) type `T` registered in the
registry, `type_oid<T>` is the unassigned sentinel 0 before any
`set_type_oid`; after `set_type_oid<T>(reg, o)` it equals `o`,
`accepts_oid<T>(reg, o)` holds and `accepts_oid<T>(reg, u)` is false
for every `u ≠ o`. -/
theorem custom_type_oid_lifecycle (table : List (Ty × TypeTraits)) (ts : List Ty)
    (t : Ty) (o : Nat) (hc : is_built_in table t = false) (ht : t ∈ ts) :
    type_oid table t (register_types ts) = some 0 ∧
    set_type_oid table t (register_types ts) o =
      some ⟨assocSet (register_types ts).impl t o⟩ ∧
    type_oid table t ⟨assocSet (register_types ts).impl t o⟩ = some o ∧
    accepts_oid table t ⟨assocSet (register_types ts).impl t o⟩ o = some true ∧
    ∀ u : Nat, u ≠ o →
      accepts_oid table t ⟨assocSet (register_types ts).impl t o⟩ u = some false := by
  have hfind : assocFind (register_types ts).impl t = some 0 := by
    show assocFind (ts.map fun s => (s, 0)) t = some 0
    rw [assocFind_map_zero]
    simp [ht]
  have h1 : type_oid table t (register_types ts) = some 0 := by
    simp [type_oid, hc, hfind]
  have hset : set_type_oid table t (register_types ts) o =
      some ⟨assocSet (register_types ts).impl t o⟩ := by
    simp [set_type_oid, hc, hfind]
  have h2 : type_oid table t ⟨assocSet (register_types ts).impl t o⟩ = some o := by
    simp only [type_oid, hc, Bool.false_eq_true, if_false]
    exact assocFind_assocSet_self _ _ _ (by simp [hfind])
  refine ⟨h1, hset, h2, ?_, ?_⟩
  · simp [accepts_oid, h2]
  · intro u hu
    simp [accepts_oid, h2]
    exact fun h' => hu h'.symm

/-- Witness for C2: the custom type indexed 7 registered alone, set to
OID 4242; checks the 0-before, 4242-after, accepts-4242 and rejects-1
facts concretely. -/
theorem custom_type_oid_lifecycle_witness :
    type_oid (defsTable builtinDefs) (Ty.custom 7) (register_types [Ty.custom 7]) =
      some 0 ∧
    type_oid (defsTable builtinDefs) (Ty.custom 7)
      ⟨assocSet (register_types [Ty.custom 7]).impl (Ty.custom 7) 4242⟩ = some 4242 ∧
    accepts_oid (defsTable builtinDefs) (Ty.custom 7)
      ⟨assocSet (register_types [Ty.custom 7]).impl (Ty.custom 7) 4242⟩ 4242 =
      some true ∧
    accepts_oid (defsTable builtinDefs) (Ty.custom 7)
      ⟨assocSet (register_types [Ty.custom 7]).impl (Ty.custom 7) 4242⟩ 1 =
      some false := by
  have h := custom_type_oid_lifecycle (defsTable builtinDefs) [Ty.custom 7]
    (Ty.custom 7) 4242 (by decide) (by decide)
  exact ⟨h.1, h.2.2.1, h.2.2.2.1, h.2.2.2.2 1 (by decide)⟩

/-- Claim C3: `size_of` of a value of a `bytes<n>` type is `n`
unconditionally, whatever the contents; `size_of` of a `dynamic_size`
value is 0 for an empty range and otherwise the element count times the
size of the first element only - e.g. over elements of sizes 2 and 5 it
yields 2 * 2 = 4, not the sum 7. -/
theorem size_of_spec (n c : Nat) (e : Value) (es : List Value) :
    size_of (.fixedVal n c) = n ∧
    size_of (.dynVal []) = 0 ∧
    size_of (.dynVal (e :: es)) = (es.length + 1) * size_of e ∧
    size_of (.dynVal [.fixedVal 2 0, .fixedVal 5 0]) = 4 := by
  refine ⟨rfl, rfl, ?_, rfl⟩
  simp [size_of, Nat.add_comm]

/-- Counterexample to C4 as stated: `register_types` does not reject
built-in types; `register_types<std::int32_t>()` builds a registry that
does contain an (unassigned) entry for the built-in `std::int32_t`. -/
theorem register_types_built_in_not_rejected :
    is_built_in (defsTable builtinDefs) Ty.int4 = true ∧
    assocFind (register_types [Ty.int4]).impl Ty.int4 = some 0 := by
  decide

/-- Claim C4 amended: `register_types<Ts...>` performs no built-in
check; it builds a registry whose entries are exactly one unassigned
(0) pair per listed type, built-in or not, so a registry can contain
built-in entries (which the built-in overload of `type_oid` then
ignores). Only `set_type_oid` rejects built-ins at build time. -/
theorem register_types_exact_entries (ts : List Ty) (t : Ty) :
    (register_types ts).impl = (ts.map fun s => (s, 0)) ∧
    assocFind (register_types ts).impl t = if t ∈ ts then some 0 else none :=
  ⟨rfl, assocFind_map_zero ts t⟩

/-- Claim C5: for every nullable wrapper type `W` over inner type `T`
with no explicit `type_traits` specialization of its own, the trait
lookup for `W` gives exactly the traits of `T` (nullability is
transparent to the descriptor lookup). -/
theorem nullable_descriptor_transparent (table : List (Ty × TypeTraits))
    (k : WrapperKind) (t : Ty) (h : assocFind table (Ty.wrapped k t) = none) :
    lookupTraits table (Ty.wrapped k t) = lookupTraits table t := by
  simp only [lookupTraits, h]

/-- Witness for C5: `boost::optional<std::int32_t>` has no explicit
specialization in the header's table, so its lookup equals the
`std::int32_t` lookup. -/
theorem nullable_descriptor_transparent_witness :
    lookupTraits (defsTable builtinDefs) (Ty.wrapped .boostOptional Ty.int4) =
      lookupTraits (defsTable builtinDefs) Ty.int4 :=
  nullable_descriptor_transparent (defsTable builtinDefs) .boostOptional Ty.int4
    (by decide)

/-- Claim C6: `is_null` on a weak pointer whose last strong owner has
been destroyed (or that was never assigned) returns true; the function
is total (the source overloads are `noexcept`: `lock()` never throws
and yields an empty strong pointer). -/
theorem weak_ptr_absent_is_null (α : Type) (w : WeakPtr α) (h : w.referent = none) :
    is_null_weak w = true := by
  simp [is_null_weak, WeakPtr.lock, is_null, h]

/-- Witness for C6: a dead `std::weak_ptr<int>`. -/
theorem weak_ptr_absent_is_null_witness :
    is_null_weak (WeakPtr.mk (none : Option Nat)) = true :=
  weak_ptr_absent_is_null Nat (WeakPtr.mk none) rfl

/-- Claim C7: `set_type_oid<T>` is a build-time error (the
`static_assert`) whenever `T` is built-in, so no such call reaches
runtime; for custom `T` present in the map it stores the OID under
`T`'s key. -/
theorem set_type_oid_built_in_rejected (table : List (Ty × TypeTraits)) (t : Ty)
    (m : oid_map_t) (o : Nat) :
    (is_built_in table t = true → set_type_oid table t m o = none) ∧
    (is_built_in table t = false → (assocFind m.impl t).isSome = true →
      set_type_oid table t m o = some ⟨assocSet m.impl t o⟩ ∧
      assocFind (assocSet m.impl t o) t = some o) := by
  constructor
  · intro h
    simp [set_type_oid, h]
  · intro h hin
    exact ⟨by simp [set_type_oid, h, hin], assocFind_assocSet_self _ _ _ hin⟩

/-- Witness for C7: setting the built-in `std::int32_t` is rejected,
setting the registered custom type indexed 0 stores the OID. -/
theorem set_type_oid_built_in_rejected_witness :
    set_type_oid (defsTable builtinDefs) Ty.int4 (register_types [Ty.int4]) 7 = none ∧
    set_type_oid (defsTable builtinDefs) (Ty.custom 0) (register_types [Ty.custom 0]) 7 =
      some ⟨assocSet (register_types [Ty.custom 0]).impl (Ty.custom 0) 7⟩ :=
  ⟨(set_type_oid_built_in_rejected (defsTable builtinDefs) Ty.int4
      (register_types [Ty.int4]) 7).1 (by decide),
   ((set_type_oid_built_in_rejected (defsTable builtinDefs) (Ty.custom 0)
      (register_types [Ty.custom 0]) 7).2 (by decide) (by decide)).1⟩

/-- Claim C8: on every wrapper kind supporting allocation,
`init_nullable` of an absent wrapper yields a present wrapper holding a
default-constructed inner value, on which `is_null` is false and
`unwrap_nullable` is the default value; `reset_nullable` of any wrapper
state is the absent state, on which `is_null` is true again. -/
theorem nullable_round_trip (α : Type) [Inhabited α] (k : WrapperKind)
    (h : allocSupported k = true) :
    init_nullable k (none : Option α) = some (some default) ∧
    is_null (some (default : α)) = false ∧
    unwrap_nullable (some (default : α)) = default ∧
    ∀ v : Option α, is_null (reset_nullable v) = true := by
  refine ⟨?_, rfl, rfl, fun v => rfl⟩
  cases k <;> simp_all [init_nullable, allocate_nullable, is_null, allocSupported]

/-- Witness for C8 on `std::unique_ptr<int>` (with `int` default 0). -/
theorem nullable_round_trip_witness :
    init_nullable WrapperKind.stdUniquePtr (none : Option Nat) = some (some 0) ∧
    is_null (reset_nullable (some (0 : Nat))) = true := by
  have h := nullable_round_trip Nat WrapperKind.stdUniquePtr (by decide)
  exact ⟨h.1, h.2.2.2 (some 0)⟩

/-- Claim C9: one `OZO_PG_DEFINE_TYPE_AND_ARRAY` registration with base
wire name `N` gives `std::vector<Type>` a descriptor whose name is `N`
with the array marker appended, whose OID is the given array OID, and
which is classified `dynamic_size`. -/
theorem define_type_array_descriptor (d : TypeDef) :
    lookupTraits (defsTable [d]) (Ty.vector d.base) =
      some ⟨d.name ++ "[]", d.arrayOid, none⟩ := by
  have hne : ¬ d.base = Ty.vector d.base := ty_ne_vector d.base
  simp [defsTable, familyEntries, lookupTraits, assocFind, hne]

/-- Claim C10: a successful `set_type_oid<T>` changes nothing but `T`'s
entry: `type_oid<U>` and the raw map lookup are unchanged for every
other type `U`, the key list of the registry is unchanged, and so is
`empty`. -/
theorem set_type_oid_frame (table : List (Ty × TypeTraits)) (t : Ty) (m : oid_map_t)
    (o : Nat) (m' : oid_map_t) (h : set_type_oid table t m o = some m') :
    (∀ u : Ty, u ≠ t → type_oid table u m' = type_oid table u m) ∧
    (∀ u : Ty, u ≠ t → assocFind m'.impl u = assocFind m.impl u) ∧
    m'.impl.map Prod.fst = m.impl.map Prod.fst ∧
    empty m' = empty m := by
  have hm' : m' = ⟨assocSet m.impl t o⟩ := by
    by_cases hb : is_built_in table t
    · simp [set_type_oid, hb] at h
    · by_cases hin : (assocFind m.impl t).isSome
      · simp [set_type_oid, hb, hin] at h
        exact h.symm
      · simp [set_type_oid, hb, hin] at h
  subst hm'
  have hfind : ∀ u : Ty, u ≠ t →
      assocFind (assocSet m.impl t o) u = assocFind m.impl u :=
    fun u hu => assocFind_assocSet_other m.impl t o u hu
  refine ⟨fun u hu => ?_, hfind, assocSet_keys m.impl t o, ?_⟩
  · by_cases hb : is_built_in table u <;> simp [type_oid, hb, hfind u hu]
  · simp [empty, assocSet_length]

/-- Witness for C10: setting the first of two registered custom types
leaves the other entry and emptiness unchanged. -/
theorem set_type_oid_frame_witness :
    type_oid (defsTable builtinDefs) (Ty.custom 1)
      ⟨assocSet (register_types [Ty.custom 0, Ty.custom 1]).impl (Ty.custom 0) 4242⟩ =
      type_oid (defsTable builtinDefs) (Ty.custom 1)
        (register_types [Ty.custom 0, Ty.custom 1]) ∧
    empty ⟨assocSet (register_types [Ty.custom 0, Ty.custom 1]).impl (Ty.custom 0) 4242⟩ =
      empty (register_types [Ty.custom 0, Ty.custom 1]) := by
  have h := set_type_oid_frame (defsTable builtinDefs) (Ty.custom 0)
    (register_types [Ty.custom 0, Ty.custom 1]) 4242
    ⟨assocSet (register_types [Ty.custom 0, Ty.custom 1]).impl (Ty.custom 0) 4242⟩
    (by decide)
  exact ⟨h.1 (Ty.custom 1) (by decide), h.2.2.2⟩

end ozo
